import Mathlib

/-!
Verification development for the batch image safety classifier
(`_worker/infrastructure/classifier/classify_batch.py`).

The Python code is shallowly embedded: pure score arithmetic becomes `ℚ`
arithmetic, pixel rasters become functions `ℕ → ℕ → _` together with their
dimensions, results of external library calls (model inference, OpenCV color
conversion, the Laplacian) are inputs at the embedding boundary, and the
stateful batch loop becomes a fold over explicit accumulator records.
-/

set_option maxHeartbeats 1000000

/-! ### Perceptual-hash deduplication (`compute_phash`, `deduplicate_images`) -/

/-- Number of set bits; `imagehash`'s `h - other_h` is the Hamming distance of
two 64-bit perceptual hashes, i.e. the popcount of their XOR. -/
def popCount : Nat → Nat
  | 0 => 0
  | n + 1 => (n + 1) % 2 + popCount ((n + 1) / 2)
decreasing_by omega

/-- Hamming distance between two hashes encoded as naturals. -/
def hammingDistance (a b : Nat) : Nat := popCount (a ^^^ b)

theorem hammingDistance_self (a : Nat) : hammingDistance a a = 0 := by
  unfold hammingDistance
  rw [Nat.xor_self]
  simp [popCount]

/-- One step of the inner `for j in range(i+1, ...)` marking loop of
`deduplicate_images`: skip entries already `used` or without a hash, mark
entries within `threshold` of the representative hash `h`. -/
def markSimilarStep (h t : Nat) (used : List Nat) (pr : Nat × Option Nat) : List Nat :=
  if pr.1 ∈ used then used
  else
    match pr.2 with
    | none => used
    | some h2 => if hammingDistance h h2 ≤ t then pr.1 :: used else used

/-- The inner marking loop of `deduplicate_images`, run over the remainder of
the hash list (`hashes[i+1:]`). `used` is the Python `used` set, modelled as a
list queried only through membership. -/
def markSimilar (h t : Nat) (l : List (Nat × Option Nat)) (used : List Nat) : List Nat :=
  l.foldl (markSimilarStep h t) used

/-- The outer loop of `deduplicate_images` over `hashes`: already-used paths
are skipped, hash failures are kept (without becoming representatives), and a
fresh path is kept, marked used, and its similar successors marked used. -/
def dedupLoop (t : Nat) : List (Nat × Option Nat) → List Nat → List Nat
  | [], _ => []
  | (p, oh) :: rest, used =>
    if p ∈ used then dedupLoop t rest used
    else
      match oh with
      | none => p :: dedupLoop t rest used
      | some h => p :: dedupLoop t rest (markSimilar h t rest (p :: used))

/-- `deduplicate_images(image_files, threshold)`. Paths are encoded as
naturals; `hashOf` models `compute_phash`, which is a deterministic function
of the path (`None` when hashing fails). The `imagehash`-unavailable early
return is outside the model (the library is assumed importable). -/
def deduplicate_images (hashOf : Nat → Option Nat) (t : Nat) (files : List Nat) : List Nat :=
  if files.length ≤ 1 then files
  else dedupLoop t (files.map fun p => (p, hashOf p)) []

/-- Whether hash `h` is within distance `t` of some representative in `reps`. -/
def closeToSome (t : Nat) (reps : List Nat) (h : Nat) : Bool :=
  reps.any fun r => decide (hammingDistance r h ≤ t)

/-- Specification-side scan, following the claim's words: walk the list in
input order keeping the accumulated representatives; an image whose hash
fails is always kept; an image with a hash is dropped iff its Hamming
distance to some earlier kept representative is at most the threshold
(ties dropped), and otherwise is kept as a new representative. -/
def repScan (hashOf : Nat → Option Nat) (t : Nat) : List Nat → List Nat → List Nat
  | [], _ => []
  | p :: rest, reps =>
    match hashOf p with
    | none => p :: repScan hashOf t rest reps
    | some h =>
      if closeToSome t reps h then repScan hashOf t rest reps
      else p :: repScan hashOf t rest (h :: reps)

/-- The claim's description of deduplication, as a standalone definition. -/
def dedupByRepresentatives (hashOf : Nat → Option Nat) (t : Nat) (files : List Nat) : List Nat :=
  repScan hashOf t files []

theorem mem_markSimilarStep (h t : Nat) (used : List Nat) (pr : Nat × Option Nat) (q : Nat) :
    q ∈ markSimilarStep h t used pr ↔
      q ∈ used ∨ (q = pr.1 ∧ ∃ hq, pr.2 = some hq ∧ hammingDistance h hq ≤ t) := by
  obtain ⟨p, oh⟩ := pr
  by_cases hp : p ∈ used
  · simp only [markSimilarStep, if_pos hp]
    constructor
    · exact Or.inl
    · rintro (hq | ⟨rfl, _⟩)
      · exact hq
      · exact hp
  · cases oh with
    | none => simp [markSimilarStep, if_neg hp]
    | some h2 =>
      simp only [markSimilarStep, if_neg hp]
      by_cases hd : hammingDistance h h2 ≤ t
      · simp only [if_pos hd, List.mem_cons]
        constructor
        · rintro (rfl | hq)
          · exact Or.inr ⟨rfl, h2, rfl, hd⟩
          · exact Or.inl hq
        · rintro (hq | ⟨rfl, hq, heq, _⟩)
          · exact Or.inr hq
          · exact Or.inl rfl
      · simp only [if_neg hd]
        constructor
        · exact Or.inl
        · rintro (hq | ⟨rfl, hq, heq, hle⟩)
          · exact hq
          · cases heq
            exact absurd hle hd

theorem mem_markSimilar (h t : Nat) (l : List (Nat × Option Nat)) :
    ∀ (used : List Nat) (q : Nat),
      q ∈ markSimilar h t l used ↔
        q ∈ used ∨ ∃ hq, (q, some hq) ∈ l ∧ hammingDistance h hq ≤ t := by
  induction l with
  | nil => intro used q; simp [markSimilar]
  | cons pr l ih =>
    intro used q
    have step : markSimilar h t (pr :: l) used = markSimilar h t l (markSimilarStep h t used pr) := rfl
    rw [step, ih, mem_markSimilarStep]
    constructor
    · rintro ((hq | ⟨rfl, hq, heq, hle⟩) | ⟨hq, hmem, hle⟩)
      · exact Or.inl hq
      · exact Or.inr ⟨hq, by rw [← heq]; exact List.mem_cons_self _ _, hle⟩
      · exact Or.inr ⟨hq, List.mem_cons_of_mem _ hmem, hle⟩
    · rintro (hq | ⟨hq, hmem, hle⟩)
      · exact Or.inl (Or.inl hq)
      · rcases List.mem_cons.mp hmem with heq | hmem2
        · subst heq
          exact Or.inl (Or.inr ⟨rfl, hq, rfl, hle⟩)
        · exact Or.inr ⟨hq, hmem2, hle⟩

theorem closeToSome_cons (t h hq : Nat) (reps : List Nat) :
    closeToSome t (h :: reps) hq = true ↔
      hammingDistance h hq ≤ t ∨ closeToSome t reps hq = true := by
  simp [closeToSome]

theorem closeToSome_nil (t hq : Nat) : closeToSome t [] hq = false := rfl

/-- The code's used-set bookkeeping refines the representative scan: while the
remaining hash list is coherent with `hashOf` and the `used` set holds exactly
the remaining paths whose hash is within threshold of some chosen
representative, the two loops produce the same kept list. -/
theorem dedupLoop_eq_repScan (hashOf : Nat → Option Nat) (t : Nat) :
    ∀ (rest : List (Nat × Option Nat)) (used reps : List Nat),
      (∀ pr ∈ rest, pr.2 = hashOf pr.1) →
      (∀ p oh, (p, oh) ∈ rest →
        (p ∈ used ↔ ∃ h, hashOf p = some h ∧ closeToSome t reps h = true)) →
      dedupLoop t rest used = repScan hashOf t (rest.map Prod.fst) reps := by
  intro rest
  induction rest with
  | nil => intro used reps _ _; rfl
  | cons pr rest ih =>
    obtain ⟨p, oh⟩ := pr
    intro used reps hcoh hinv
    have hcoh_head : oh = hashOf p := hcoh (p, oh) (List.mem_cons_self _ _)
    have hcoh_rest : ∀ pr ∈ rest, pr.2 = hashOf pr.1 :=
      fun pr hm => hcoh pr (List.mem_cons_of_mem _ hm)
    have hinv_rest : ∀ p2 oh2, (p2, oh2) ∈ rest →
        (p2 ∈ used ↔ ∃ h, hashOf p2 = some h ∧ closeToSome t reps h = true) :=
      fun p2 oh2 hm => hinv p2 oh2 (List.mem_cons_of_mem _ hm)
    have hinv_head := hinv p oh (List.mem_cons_self _ _)
    by_cases hp : p ∈ used
    · obtain ⟨h, hhash, hclose⟩ := hinv_head.mp hp
      simp only [dedupLoop, if_pos hp, List.map_cons, repScan, hhash, hclose, if_true]
      exact ih used reps hcoh_rest hinv_rest
    · cases hOf : hashOf p with
      | none =>
        rw [hOf] at hcoh_head
        subst hcoh_head
        simp only [dedupLoop, if_neg hp, List.map_cons, repScan, hOf]
        exact congrArg (p :: ·) (ih used reps hcoh_rest hinv_rest)
      | some h =>
        rw [hOf] at hcoh_head
        subst hcoh_head
        have hnc : closeToSome t reps h = false := by
          cases hcb : closeToSome t reps h
          · rfl
          · exact absurd (hinv_head.mpr ⟨h, hOf, hcb⟩) hp
        simp only [dedupLoop, if_neg hp, List.map_cons, repScan, hOf, hnc,
          Bool.false_eq_true, if_false]
        refine congrArg (p :: ·) (ih (markSimilar h t rest (p :: used)) (h :: reps)
          hcoh_rest ?_)
        intro q oh2 hm
        have hq_hash : oh2 = hashOf q := hcoh_rest (q, oh2) hm
        rw [mem_markSimilar]
        simp only [closeToSome_cons]
        constructor
        · rintro (hq | ⟨hq, hmem, hle⟩)
          · rcases List.mem_cons.mp hq with rfl | hq2
            · exact ⟨h, hOf, Or.inl (by rw [hammingDistance_self]; exact Nat.zero_le t)⟩
            · obtain ⟨hh, hhh, hch⟩ := (hinv_rest q oh2 hm).mp hq2
              exact ⟨hh, hhh, Or.inr hch⟩
          · have : hashOf q = some hq := (hcoh_rest (q, some hq) hmem).symm
            exact ⟨hq, this, Or.inl hle⟩
        · rintro ⟨hq, hhq, hclose | hclose⟩
          · refine Or.inr ⟨hq, ?_, hclose⟩
            have : oh2 = some hq := by rw [hq_hash, hhq]
            rw [← this]
            exact hm
          · exact Or.inl (List.mem_cons_of_mem _ ((hinv_rest q oh2 hm).mpr ⟨hq, hhq, hclose⟩))

theorem map_fst_pairing (hashOf : Nat → Option Nat) (files : List Nat) :
    (files.map fun p => (p, hashOf p)).map Prod.fst = files := by
  induction files with
  | nil => rfl
  | cons p rest ih => simp [ih]

/-- `deduplicate_images` computes exactly the representative scan, including
through its length-at-most-one early return. -/
theorem dedup_eq_repSpec (hashOf : Nat → Option Nat) (t : Nat) (files : List Nat) :
    deduplicate_images hashOf t files = dedupByRepresentatives hashOf t files := by
  unfold deduplicate_images dedupByRepresentatives
  match files with
  | [] => rfl
  | [p] =>
    simp only [List.length_singleton, le_refl, if_true]
    cases hOf : hashOf p <;> simp [repScan, hOf, closeToSome_nil]
  | p :: q :: rest =>
    have hlen : ¬(p :: q :: rest).length ≤ 1 := by
      simp only [List.length_cons]
      omega
    rw [if_neg hlen]
    rw [dedupLoop_eq_repScan hashOf t ((p :: q :: rest).map fun a => (a, hashOf a)) [] []
      ?_ ?_]
    · rw [map_fst_pairing]
    · intro pr hm
      obtain ⟨a, _, rfl⟩ := List.mem_map.mp hm
      rfl
    · intro a oh hm
      simp [closeToSome_nil]

/-- Rescanning the output of a representative scan (with the same starting
representatives) keeps every element: each kept hashed element was itself a
representative far from all earlier ones. -/
theorem repScan_idem (hashOf : Nat → Option Nat) (t : Nat) :
    ∀ (l reps : List Nat),
      repScan hashOf t (repScan hashOf t l reps) reps = repScan hashOf t l reps := by
  intro l
  induction l with
  | nil => intro reps; rfl
  | cons p rest ih =>
    intro reps
    cases hOf : hashOf p with
    | none =>
      simp only [repScan, hOf]
      exact congrArg (p :: ·) (ih reps)
    | some h =>
      cases hcb : closeToSome t reps h with
      | true =>
        simp only [repScan, hOf, hcb, if_true]
        exact ih reps
      | false =>
        simp only [repScan, hOf, hcb, Bool.false_eq_true, if_false]
        exact congrArg (p :: ·) (ih (h :: reps))

/-- Claim C6: `deduplicate_images` scans the image list in input order and an
image with a computed hash is dropped iff its Hamming distance to some earlier
kept representative is at most the threshold (ties dropped); the first
representative of each group is kept and hash failures are always kept —
i.e. the code equals the representative-scan specification
`dedupByRepresentatives`. -/
theorem dedup_matches_representative_scan (hashOf : Nat → Option Nat) (t : Nat)
    (files : List Nat) :
    deduplicate_images hashOf t files = dedupByRepresentatives hashOf t files :=
  dedup_eq_repSpec hashOf t files

/-- Claim C7: deduplication is idempotent — applying `deduplicate_images` to
its own output (hashes computed deterministically per path) returns that
output unchanged, same elements in the same order. -/
theorem dedup_idempotent (hashOf : Nat → Option Nat) (t : Nat) (files : List Nat) :
    deduplicate_images hashOf t (deduplicate_images hashOf t files) =
      deduplicate_images hashOf t files := by
  rw [dedup_eq_repSpec hashOf t files,
    dedup_eq_repSpec hashOf t (dedupByRepresentatives hashOf t files)]
  unfold dedupByRepresentatives
  exact repScan_idem hashOf t files []

/-! ### Configuration (module-level constants of `classify_batch.py`) -/

/-- `SUPER_SAFE_THRESHOLD = 0.15`. -/
def SUPER_SAFE_THRESHOLD : ℚ := 15/100

/-- `NSFW_THRESHOLD = 0.3`. -/
def NSFW_THRESHOLD : ℚ := 3/10

/-- `MIN_FACE_SCORE = 0.1`. -/
def MIN_FACE_SCORE : ℚ := 1/10

/-- `PHASH_THRESHOLD = 8`. -/
def PHASH_THRESHOLD : Nat := 8

/-- `MOSAIC_THRESHOLD = 0.005` (local to `_detect_mosaic`). -/
def MOSAIC_THRESHOLD : ℚ := 5/1000

/-- `POV_THRESHOLD = 0.7` (local to `_detect_pov`). -/
def POV_THRESHOLD : ℚ := 7/10

/-- `NSFW_LABELS` (NudeNet v3 label vocabulary). -/
def NSFW_LABELS : List String :=
  ["FEMALE_BREAST_EXPOSED", "FEMALE_GENITALIA_EXPOSED", "MALE_GENITALIA_EXPOSED",
   "BUTTOCKS_EXPOSED", "ANUS_EXPOSED", "FEMALE_BREAST_COVERED", "BELLY_EXPOSED"]

/-- The three tier thresholds; module-level mutable globals in the source,
overridable from the command line, passed explicitly here. -/
structure Thresholds where
  nsfw_threshold : ℚ
  super_safe_threshold : ℚ
  min_face_score : ℚ

/-- The default threshold configuration. -/
def defaultThresholds : Thresholds :=
  { nsfw_threshold := NSFW_THRESHOLD,
    super_safe_threshold := SUPER_SAFE_THRESHOLD,
    min_face_score := MIN_FACE_SCORE }

/-! ### Score fusion and signal scorers -/

/-- The piecewise fusion of `falconsai_score` and `nudenet_score` into the
combined `nsfw_score` (`NSFWClassifier.classify`, weighted-logic block). -/
def fuseScores (falconsai_score nudenet_score : ℚ) : ℚ :=
  if nudenet_score < 25/100 then falconsai_score * (3/10)
  else if nudenet_score > 6/10 then nudenet_score
  else nudenet_score * (7/10) + falconsai_score * (3/10)

/-- `_score_falconsai`: the model returns labelled scores (labels already
lowercased, as in the source); the first label among nsfw/porn/sexy/hentai
wins, otherwise 0. A failed or absent model also yields 0. -/
def scoreFalconsai (results : List (String × ℚ)) : ℚ :=
  match results.find? (fun r => decide (r.1 ∈ ["nsfw", "porn", "sexy", "hentai"])) with
  | some r => r.2
  | none => 0

/-- `_score_nudenet`: maximum confidence over detections whose class is in
`NSFW_LABELS`, 0 when there are none (or the detector is absent/fails). -/
def scoreNudenet (detections : List (String × ℚ)) : ℚ :=
  if detections = [] then 0
  else detections.foldl (fun m det => if det.1 ∈ NSFW_LABELS then max m det.2 else m) 0

/-- `_calculate_face_score`: score from the largest detected face's area ratio
(faces are `(x, y, w, h)` boxes from the Haar cascade; the empty list also
covers an absent cascade or an exception, which return the same `0.0`). -/
def faceScore (img_h img_w : Nat) (faces : List (Nat × Nat × Nat × Nat)) : ℚ :=
  if faces = [] then 0
  else
    let img_area : ℚ := (img_h : ℚ) * (img_w : ℚ)
    let max_face_ratio : ℚ :=
      faces.foldl (fun m f => max m (((f.2.2.1 : ℚ) * (f.2.2.2 : ℚ)) / img_area)) 0
    if max_face_ratio < 1/100 then max_face_ratio * 10
    else if max_face_ratio > 1/2 then 1/2
    else min 1 (max_face_ratio * 5)

/-- `_calculate_aesthetic_score` over the two raster statistics it uses: the
variance of the Laplacian (sharpness) and the mean gray level (brightness). -/
def aestheticScore (laplacian_var mean_gray : ℚ) : ℚ :=
  let sharpness := min 1 (laplacian_var / 500)
  let brightness := mean_gray / 255
  let brightness_score := 1 - |brightness - 1/2| * 2
  sharpness * (6/10) + brightness_score * (4/10)

/-- Python's `round(x, 4)` used when filling the per-image result dict,
modelled as round-half-up to 4 decimals (Python rounds exact half-ties to
even; no property here distinguishes the two at a tie). -/
def round4 (x : ℚ) : ℚ := ((⌊x * 10000 + 1/2⌋ : ℤ) : ℚ) / 10000

/-! ### Mosaic/censorship detector (`_detect_mosaic`)

The raster enters the model as its two derived planes: the grayscale plane
`gray` and the boolean skin mask `skin` (the HSV conversion and the two
`cv2.inRange` skin ranges are external library calls). The variance of the
Laplacian over skin pixels (`skin_lap_var`) is likewise an input. -/

/-- Python's `range(0, stop, step)` for positive `step` (empty when
`stop = 0`, which is how a negative Python `stop` reaches us through
truncated `Nat` subtraction). -/
def rangeStep (stop step : Nat) : List Nat :=
  (List.range ((stop + step - 1) / step)).map (fun i => i * step)

/-- Number of skin pixels in the `h × w` rectangle at `(y0, x0)`
(`np.sum(mask_region > 0)`). -/
def countSkin (skin : Nat → Nat → Bool) (y0 x0 h w : Nat) : Nat :=
  ((List.range h).map (fun dy =>
    ((List.range w).filter (fun dx => skin (y0 + dy) (x0 + dx))).length)).sum

/-- Sum of a rational plane over the `h × w` rectangle at `(y0, x0)`. -/
def regionSum (g : Nat → Nat → ℚ) (y0 x0 h w : Nat) : ℚ :=
  ((List.range h).map (fun dy =>
    ((List.range w).map (fun dx => g (y0 + dy) (x0 + dx))).sum)).sum

/-- `np.mean` over a rectangle. -/
def regionMean (g : Nat → Nat → ℚ) (y0 x0 h w : Nat) : ℚ :=
  regionSum g y0 x0 h w / ((h : ℚ) * (w : ℚ))

/-- `np.var` over a rectangle (mean of squared deviations from the mean). -/
def regionVar (g : Nat → Nat → ℚ) (y0 x0 h w : Nat) : ℚ :=
  let mu := regionMean g y0 x0 h w
  regionSum (fun y x => (g y x - mu) ^ 2) y0 x0 h w / ((h : ℚ) * (w : ℚ))

/-- The per-window mosaic-pattern test of `_detect_mosaic`: four half-size
sub-blocks with low variance but differing means, and a sharp edge across one
of the two internal boundaries. -/
def mosaicWindowHit (gray : Nat → Nat → ℚ) (y x bs : Nat) : Bool :=
  let half := bs / 2
  let v1 := regionVar gray y x half half
  let v2 := regionVar gray y (x + half) half half
  let v3 := regionVar gray (y + half) x half half
  let v4 := regionVar gray (y + half) (x + half) half half
  let m1 := regionMean gray y x half half
  let m2 := regionMean gray y (x + half) half half
  let m3 := regionMean gray (y + half) x half half
  let m4 := regionMean gray (y + half) (x + half) half half
  let avg_var := (v1 + v2 + v3 + v4) / 4
  let max_var := max (max v1 v2) (max v3 v4)
  let mean_range := max (max m1 m2) (max m3 m4) - min (min m1 m2) (min m3 m4)
  if max_var < 120 ∧ avg_var < 80 ∧ mean_range > 15 then
    let h_edge := |regionMean gray (y + half - 1) x 1 bs - regionMean gray (y + half) x 1 bs|
    let v_edge := |regionMean gray y (x + half - 1) bs 1 - regionMean gray y (x + half) bs 1|
    decide (h_edge > 12 ∨ v_edge > 12)
  else false

/-- The sliding-window double loop of `_detect_mosaic` for one block size:
counts `(mosaic_blocks, skin_blocks)` over overlapping windows with stride
`block_size / 2`, analysing only windows whose skin ratio is at least 0.3. -/
def mosaicCountsForSize (gray : Nat → Nat → ℚ) (skin : Nat → Nat → Bool)
    (img_h img_w bs : Nat) : Nat × Nat :=
  (rangeStep (img_h - bs) (bs / 2)).foldl (fun acc y =>
    (rangeStep (img_w - bs) (bs / 2)).foldl (fun acc2 x =>
      let skin_ratio : ℚ := (countSkin skin y x bs bs : ℚ) / ((bs : ℚ) * (bs : ℚ))
      if skin_ratio < 3/10 then acc2
      else
        if mosaicWindowHit gray y x bs then (acc2.1 + 1, acc2.2 + 1)
        else (acc2.1, acc2.2 + 1)) acc) (0, 0)

/-- The best `mosaic_blocks / skin_blocks` ratio over block sizes 8, 12, 16,
20, requiring more than 10 analysed skin windows per size. -/
def mosaicBestScore (gray : Nat → Nat → ℚ) (skin : Nat → Nat → Bool)
    (img_h img_w : Nat) : ℚ :=
  [8, 12, 16, 20].foldl (fun best bs =>
    let c := mosaicCountsForSize gray skin img_h img_w bs
    if c.2 > 10 then
      let ratio : ℚ := (c.1 : ℚ) / (c.2 : ℚ)
      if ratio > best then ratio else best
    else best) 0

/-- `_detect_mosaic`, returning `(is_mosaic_detected, mosaic_score)`; the
human-readable details string of the source carries no decision weight and is
not modelled. Exceptions inside the detector return `(False, 0.0)` and are
unreachable in this pure model. -/
def detect_mosaic (img_h img_w : Nat) (gray : Nat → Nat → ℚ)
    (skin : Nat → Nat → Bool) (skin_lap_var : ℚ) : Bool × ℚ :=
  if img_w < 100 ∨ img_h < 100 then (false, 0)
  else
    let base := mosaicBestScore gray skin img_h img_w
    let best :=
      if countSkin skin 0 0 img_h img_w > 1000 then
        if skin_lap_var > 500 then
          let lap_score := min 1 (skin_lap_var / 2000)
          if lap_score > base * (1/2) then max base (base + lap_score * (3/10)) else base
        else base
      else base
    (decide (best > MOSAIC_THRESHOLD), best)

/-! ### POV-composition detector (`_detect_pov`) -/

/-- The additive `pov_score` accumulation block of `_detect_pov`: large face
(+0.3/+0.2), bottom skin (+0.3/+0.2), V-shape (+0.3/+0.2), face in the upper
40% (+0.2). -/
def povContrib (face_ratio bottom_skin_ratio v_shape_score face_y_ratio : ℚ) : ℚ :=
  (if face_ratio > 2/10 then 3/10 else if face_ratio > 15/100 then 2/10 else 0) +
  (if bottom_skin_ratio > 15/100 then 3/10
   else if bottom_skin_ratio > 8/100 then 2/10 else 0) +
  (if v_shape_score > 15/100 then 3/10
   else if v_shape_score > 8/100 then 2/10 else 0) +
  (if face_y_ratio < 4/10 then 2/10 else 0)

/-- `_detect_pov`, returning `(is_pov_detected, pov_score)` over the raster
dimensions, the face boxes handed over from `_calculate_face_score`, and the
skin mask (built by the same two HSV ranges as in `_detect_mosaic`). The
details string is not modelled; `int(img_h * 0.6)` and `int(img_h * 0.9)` are
exact rational floors. -/
def detect_pov (img_h img_w : Nat) (face_data : List (Nat × Nat × Nat × Nat))
    (skin : Nat → Nat → Bool) : Bool × ℚ :=
  if face_data = [] then (false, 0)
  else
    let img_area : ℚ := (img_h : ℚ) * (img_w : ℚ)
    let largest_face :=
      face_data.foldl
        (fun best f => if f.2.2.1 * f.2.2.2 > best.2.2.1 * best.2.2.2 then f else best)
        face_data.headI
    let fx := largest_face.1
    let fy := largest_face.2.1
    let fw := largest_face.2.2.1
    let fh := largest_face.2.2.2
    let face_ratio : ℚ := ((fw : ℚ) * (fh : ℚ)) / img_area
    if face_ratio < 15/100 then (false, 0)
    else
      let face_center_x : ℚ := (fx : ℚ) + (fw : ℚ) / 2
      let center_offset : ℚ := |face_center_x - (img_w : ℚ) / 2| / ((img_w : ℚ) / 2)
      if center_offset > 4/10 then (false, 0)
      else
        let face_center_y : ℚ := (fy : ℚ) + (fh : ℚ) / 2
        let face_y_ratio : ℚ := face_center_y / (img_h : ℚ)
        if face_y_ratio > 1/2 then (false, 0)
        else
          let bottom_start := img_h * 6 / 10
          let bottom_rows := img_h - bottom_start
          let bottom_area := bottom_rows * img_w
          let bottom_skin_ratio : ℚ :=
            if bottom_area > 0 then
              (countSkin skin bottom_start 0 bottom_rows img_w : ℚ) / (bottom_area : ℚ)
            else 0
          let bottom_edge_start := img_h * 9 / 10
          let edge_rows := img_h - bottom_edge_start
          let edge_area := edge_rows * img_w
          let bottom_edge_skin_ratio : ℚ :=
            if edge_area > 0 then
              (countSkin skin bottom_edge_start 0 edge_rows img_w : ℚ) / (edge_area : ℚ)
            else 0
          let third_w := img_w / 3
          let left_skin : ℚ :=
            (countSkin skin bottom_start 0 bottom_rows third_w : ℚ) /
              ((bottom_rows * third_w : ℕ) + 1 : ℚ)
          let center_skin : ℚ :=
            (countSkin skin bottom_start third_w bottom_rows third_w : ℚ) /
              ((bottom_rows * third_w : ℕ) + 1 : ℚ)
          let right_skin : ℚ :=
            (countSkin skin bottom_start (2 * third_w) bottom_rows (img_w - 2 * third_w) : ℚ) /
              ((bottom_rows * (img_w - 2 * third_w) : ℕ) + 1 : ℚ)
          let v_shape_score : ℚ :=
            if center_skin > 1/10 then
              if center_skin > left_skin ∧ center_skin > right_skin then center_skin
              else if center_skin > 15/100 then center_skin * (8/10)
              else 0
            else 0
          let pov_score : ℚ :=
            povContrib face_ratio bottom_skin_ratio v_shape_score face_y_ratio
          let is_pov :=
            pov_score ≥ POV_THRESHOLD ∧ bottom_skin_ratio > 2/10 ∧
              bottom_edge_skin_ratio > 1/2
          (decide is_pov, pov_score)

/-! ### Per-image classification (`NSFWClassifier.classify`) -/

/-- Everything an image contributes through the external-library boundary:
whether `PIL.Image.open(...).convert("RGB")` succeeded (and the exception
message when not), whether `cv2.imread` produced a raster, the raster's
dimensions and derived planes, and the raw model outputs. -/
structure ImageEnv where
  pil_ok : Bool
  pil_error : String
  cv_ok : Bool
  img_h : Nat
  img_w : Nat
  falconsai_results : List (String × ℚ)
  nudenet_detections : List (String × ℚ)
  faces : List (Nat × Nat × Nat × Nat)
  laplacian_var : ℚ
  mean_gray : ℚ
  gray : Nat → Nat → ℚ
  skin : Nat → Nat → Bool
  skin_lap_var : ℚ

/-- The per-image result dict. The `filename` passthrough is omitted; the
success-path `reason` strings carry their constant prefix without the
interpolated numbers (no claim inspects them); the cv-load-failure dict of the
source omits the two POV keys, which the batch loop reads back with
`.get(..., False)`, so they are modelled as their defaults. -/
structure ClassifyResult where
  is_super_safe : Bool
  is_safe : Bool
  nsfw_score : ℚ
  face_score : ℚ
  aesthetic_score : ℚ
  falconsai_score : ℚ
  nudenet_score : ℚ
  mosaic_detected : Bool
  mosaic_score : ℚ
  pov_detected : Bool
  pov_score : ℚ
  classification : String
  reason : String
  error : String

/-- The two load-failure results of `classify` (`cv2.imread` returning `None`,
and the surrounding `except` clause), which differ only in the message. -/
def errorResult (msg : String) : ClassifyResult :=
  { is_super_safe := false, is_safe := false, nsfw_score := 1, face_score := 0,
    aesthetic_score := 0, falconsai_score := 0, nudenet_score := 0,
    mosaic_detected := false, mosaic_score := 0, pov_detected := false,
    pov_score := 0, classification := "error", reason := msg, error := msg }

/-- `falconsai_score` of an image. -/
def falconsaiOf (env : ImageEnv) : ℚ := scoreFalconsai env.falconsai_results

/-- `nudenet_score` of an image. -/
def nudenetOf (env : ImageEnv) : ℚ := scoreNudenet env.nudenet_detections

/-- The fused `nsfw_score` of an image. -/
def fusedOf (env : ImageEnv) : ℚ := fuseScores (falconsaiOf env) (nudenetOf env)

/-- The `face_score` of an image. -/
def faceScoreOf (env : ImageEnv) : ℚ := faceScore env.img_h env.img_w env.faces

/-- The mosaic signal, honouring `--skip-mosaic`. -/
def mosaicOf (skip_mosaic : Bool) (env : ImageEnv) : Bool × ℚ :=
  if skip_mosaic then (false, 0)
  else detect_mosaic env.img_h env.img_w env.gray env.skin env.skin_lap_var

/-- The POV signal, honouring `--skip-pov`. -/
def povOf (skip_pov : Bool) (env : ImageEnv) : Bool × ℚ :=
  if skip_pov then (false, 0)
  else detect_pov env.img_h env.img_w env.faces env.skin

/-- `NSFWClassifier.classify`: load both rasters (PIL first — undecodable
bytes raise there and land in the exception path), extract the signals in
source order, fuse, and assign the tier by the first-match rule chain. -/
def classify (skip_mosaic skip_pov : Bool) (th : Thresholds) (env : ImageEnv) :
    ClassifyResult :=
  if env.pil_ok = false then errorResult env.pil_error
  else if env.cv_ok = false then errorResult "Failed to load image"
  else
    let nsfw_score := fusedOf env
    let face_score := faceScoreOf env
    let aesthetic_score := aestheticScore env.laplacian_var env.mean_gray
    let mosaic := mosaicOf skip_mosaic env
    let pov := povOf skip_pov env
    let is_super_safe :=
      nsfw_score < th.super_safe_threshold ∧ face_score > th.min_face_score ∧
        mosaic.1 = false ∧ pov.1 = false
    let is_safe := nsfw_score < th.nsfw_threshold ∧ mosaic.1 = false
    let classification :=
      if mosaic.1 then "nsfw"
      else if pov.1 then "safe"
      else if is_super_safe then "super_safe"
      else if nsfw_score < th.nsfw_threshold then "safe"
      else "nsfw"
    let reason :=
      if mosaic.1 then "mosaic detected"
      else if pov.1 then "POV composition detected"
      else if is_super_safe then "super_safe criteria met"
      else if nsfw_score < th.nsfw_threshold then
        (if nsfw_score ≥ th.super_safe_threshold then "too high for super_safe"
         else "no face detected")
      else "nsfw at or above threshold"
    { is_super_safe := decide is_super_safe, is_safe := decide is_safe,
      nsfw_score := round4 nsfw_score, face_score := round4 face_score,
      aesthetic_score := round4 aesthetic_score,
      falconsai_score := round4 (falconsaiOf env),
      nudenet_score := round4 (nudenetOf env),
      mosaic_detected := mosaic.1, mosaic_score := round4 mosaic.2,
      pov_detected := pov.1, pov_score := round4 pov.2,
      classification := classification, reason := reason, error := "" }

/-! ### Batch driver (`classify_batch`) -/

/-- The per-batch accumulators of the `for image_path in image_files` loop. -/
structure BatchCounts where
  super_safe_count : Nat
  safe_count : Nat
  nsfw_count : Nat
  error_count : Nat
  mosaic_count : Nat
  pov_count : Nat
  total_nsfw_score : ℚ
  total_face_score : ℚ

/-- All accumulators start at zero. -/
def initCounts : BatchCounts :=
  { super_safe_count := 0, safe_count := 0, nsfw_count := 0, error_count := 0,
    mosaic_count := 0, pov_count := 0, total_nsfw_score := 0, total_face_score := 0 }

/-- One iteration of the batch loop: the `error`/`is_super_safe`/`is_safe`
elif-chain (a non-empty error string is truthy in Python), the mosaic and POV
tallies, and the running score totals. -/
def updateCounts (c : BatchCounts) (r : ClassifyResult) : BatchCounts :=
  let c1 :=
    if r.error ≠ "" then { c with error_count := c.error_count + 1 }
    else if r.is_super_safe then { c with super_safe_count := c.super_safe_count + 1 }
    else if r.is_safe then { c with safe_count := c.safe_count + 1 }
    else { c with nsfw_count := c.nsfw_count + 1 }
  let c2 := if r.mosaic_detected then { c1 with mosaic_count := c1.mosaic_count + 1 } else c1
  let c3 := if r.pov_detected then { c2 with pov_count := c2.pov_count + 1 } else c2
  { c3 with total_nsfw_score := c3.total_nsfw_score + r.nsfw_score,
            total_face_score := c3.total_face_score + r.face_score }

/-- The `stats` object of the report produced by `classify_batch`, as an
ordered key/value list mirroring the two dict literals of the source: the
short dict of the empty-input early return, and the full dict of a processed
batch. `envOf` resolves a path to its image boundary data; `processing_time`
stands for the wall-clock measurement. -/
def classify_batch_stats (skip_mosaic skip_pov skip_dedup : Bool) (th : Thresholds)
    (hashOf : Nat → Option Nat) (dedup_threshold : Nat) (envOf : Nat → ImageEnv)
    (processing_time : ℚ) (image_files : List Nat) : List (String × ℚ) :=
  if image_files = [] then
    [("total_images", 0), ("super_safe_count", 0), ("safe_count", 0),
     ("nsfw_count", 0), ("error_count", 0), ("mosaic_count", 0), ("pov_count", 0),
     ("avg_nsfw_score", 0), ("avg_face_score", 0), ("processing_time_sec", 0)]
  else
    let original_count := image_files.length
    let files :=
      if skip_dedup then image_files
      else deduplicate_images hashOf dedup_threshold image_files
    let dedup_removed := original_count - files.length
    let c := files.foldl
      (fun acc p => updateCounts acc (classify skip_mosaic skip_pov th (envOf p)))
      initCounts
    let total_images := files.length
    let avg_nsfw : ℚ :=
      if total_images > 0 then c.total_nsfw_score / (total_images : ℚ) else 0
    let avg_face : ℚ :=
      if total_images > 0 then c.total_face_score / (total_images : ℚ) else 0
    [("total_images", (total_images : ℚ)), ("original_images", (original_count : ℚ)),
     ("duplicates_removed", (dedup_removed : ℚ)),
     ("super_safe_count", (c.super_safe_count : ℚ)), ("safe_count", (c.safe_count : ℚ)),
     ("nsfw_count", (c.nsfw_count : ℚ)), ("error_count", (c.error_count : ℚ)),
     ("mosaic_count", (c.mosaic_count : ℚ)), ("pov_count", (c.pov_count : ℚ)),
     ("avg_nsfw_score", round4 avg_nsfw), ("avg_face_score", round4 avg_face),
     ("processing_time_sec", processing_time)]

/-- The twelve keys of the stable report-stats schema. -/
def statsSchema : List String :=
  ["total_images", "original_images", "duplicates_removed", "super_safe_count",
   "safe_count", "nsfw_count", "error_count", "mosaic_count", "pov_count",
   "avg_nsfw_score", "avg_face_score", "processing_time_sec"]

/-! ### Concrete image environments used in counterexamples and witnesses -/

/-- A successfully loaded 1-by-1 image with no detections at all. -/
def trivialEnv : ImageEnv :=
  { pil_ok := true, pil_error := "", cv_ok := true, img_h := 1, img_w := 1,
    falconsai_results := [], nudenet_detections := [], faces := [],
    laplacian_var := 0, mean_gray := 0, gray := fun _ _ => 0,
    skin := fun _ _ => false, skin_lap_var := 0 }

/-- The skin mask of the POV test images: everything from row 4 down is
skin-toned. -/
def povSkin : Nat → Nat → Bool := fun y _ => decide (4 ≤ y)

/-- An 8-by-8 image with a large centred upper face (box `(2,1,4,4)`), an
all-skin bottom half, and a confident NudeNet nudity detection: POV fires
while the fused score is 0.9. -/
def povEnv : ImageEnv :=
  { pil_ok := true, pil_error := "", cv_ok := true, img_h := 8, img_w := 8,
    falconsai_results := [],
    nudenet_detections := [("FEMALE_BREAST_EXPOSED", 9/10)],
    faces := [(2, 1, 4, 4)],
    laplacian_var := 0, mean_gray := 0, gray := fun _ _ => 0,
    skin := povSkin, skin_lap_var := 0 }

/-- The same 8-by-8 POV composition with no NSFW detections: every POV
contribution fires, so `pov_score` reaches 1.1. -/
def povEnv2 : ImageEnv :=
  { pil_ok := true, pil_error := "", cv_ok := true, img_h := 8, img_w := 8,
    falconsai_results := [], nudenet_detections := [],
    faces := [(2, 1, 4, 4)],
    laplacian_var := 0, mean_gray := 0, gray := fun _ _ => 0,
    skin := povSkin, skin_lap_var := 0 }

/-- An image whose bytes do not decode: PIL raises (its exception message is
recorded) and OpenCV would also fail. -/
def badBytesEnv : ImageEnv :=
  { pil_ok := false, pil_error := "cannot identify image file", cv_ok := false,
    img_h := 0, img_w := 0, falconsai_results := [], nudenet_detections := [],
    faces := [], laplacian_var := 0, mean_gray := 0, gray := fun _ _ => 0,
    skin := fun _ _ => false, skin_lap_var := 0 }


/-! ### Evaluation lemmas for the concrete environments -/

theorem detect_mosaic_small (img_h img_w : Nat) (g : Nat → Nat → ℚ)
    (s : Nat → Nat → Bool) (v : ℚ) (h : img_w < 100 ∨ img_h < 100) :
    detect_mosaic img_h img_w g s v = (false, 0) := by
  unfold detect_mosaic
  rw [if_pos h]

theorem povSkin_pov_eval : detect_pov 8 8 [(2, 1, 4, 4)] povSkin = (true, 11/10) := by
  have hc1 : countSkin povSkin 4 0 4 8 = 32 := by decide
  have hc2 : countSkin povSkin 7 0 1 8 = 8 := by decide
  have hc3 : countSkin povSkin 4 0 4 2 = 8 := by decide
  have hc4 : countSkin povSkin 4 2 4 2 = 8 := by decide
  have hc5 : countSkin povSkin 4 4 4 4 = 16 := by decide
  simp only [detect_pov, povContrib, List.headI, List.foldl]
  norm_num [hc1, hc2, hc3, hc4, hc5, POV_THRESHOLD]

theorem povEnv_mosaicOf : mosaicOf false povEnv = (false, 0) := by
  have : detect_mosaic 8 8 povEnv.gray povEnv.skin 0 = (false, 0) :=
    detect_mosaic_small 8 8 _ _ 0 (Or.inl (by norm_num))
  simpa [mosaicOf, povEnv] using this

theorem povEnv_povOf : povOf false povEnv = (true, 11/10) := by
  have := povSkin_pov_eval
  simpa [povOf, povEnv] using this

theorem povEnv_fused : fusedOf povEnv = 9/10 := by
  have hn : nudenetOf povEnv = 9/10 := by
    simp +decide only [nudenetOf, povEnv, scoreNudenet, NSFW_LABELS, List.foldl]
    norm_num
  have hf : falconsaiOf povEnv = 0 := by
    simp [falconsaiOf, povEnv, scoreFalconsai]
  rw [fusedOf, hn, hf]
  simp only [fuseScores]
  norm_num

theorem classify_povEnv_classification :
    (classify false false defaultThresholds povEnv).classification = "safe" := by
  have hpil : povEnv.pil_ok = true := rfl
  have hcv : povEnv.cv_ok = true := rfl
  simp only [classify, povEnv_mosaicOf, povEnv_povOf, hpil, hcv]
  norm_num

theorem classify_povEnv_mosaic :
    (classify false false defaultThresholds povEnv).mosaic_detected = false := by
  have hpil : povEnv.pil_ok = true := rfl
  have hcv : povEnv.cv_ok = true := rfl
  simp only [classify, povEnv_mosaicOf, povEnv_povOf, hpil, hcv]
  norm_num

/-! ### The tier rule chain -/

/-- For a successfully loaded image the classification is the first-match rule
chain over the mosaic flag, the POV flag, the super-safe test and the NSFW
threshold. -/
theorem classify_classification (skipM skipP : Bool) (th : Thresholds) (env : ImageEnv)
    (hpil : env.pil_ok = true) (hcv : env.cv_ok = true) :
    (classify skipM skipP th env).classification =
      (if (mosaicOf skipM env).1 then "nsfw"
       else if (povOf skipP env).1 then "safe"
       else if fusedOf env < th.super_safe_threshold ∧ faceScoreOf env > th.min_face_score
         then "super_safe"
       else if fusedOf env < th.nsfw_threshold then "safe"
       else "nsfw") := by
  cases hm : (mosaicOf skipM env).1 with
  | true => simp [classify, hpil, hcv, hm]
  | false =>
    cases hp : (povOf skipP env).1 with
    | true => simp [classify, hpil, hcv, hm, hp]
    | false => simp [classify, hpil, hcv, hm, hp]

/-- Claim C1 counterexample: on `povEnv` the fused score is 0.9, at or above
`NSFW_THRESHOLD`, no mosaic is detected, yet the POV rule classifies the image
"safe" — so the claimed equivalence fails. -/
theorem spec_C1_counterexample :
    ¬ (((classify false false defaultThresholds povEnv).classification = "nsfw") ↔
        (NSFW_THRESHOLD ≤ fusedOf povEnv ∨
          (classify false false defaultThresholds povEnv).mosaic_detected = true)) := by
  rw [classify_povEnv_classification, classify_povEnv_mosaic, povEnv_fused]
  intro hiff
  have hsafe : ("safe" : String) = "nsfw" :=
    hiff.mpr (Or.inl (by norm_num [NSFW_THRESHOLD]))
  exact absurd hsafe (by decide)

/-- Claim C1 (amended): for a successfully loaded image, when the super-safe
threshold does not exceed the NSFW threshold (as with the defaults), the tier
is "nsfw" iff mosaic was detected, or POV was not detected and the fused score
is at or above the NSFW threshold. (The original claim omitted the POV
exception.) -/
theorem spec_C1 (skipM skipP : Bool) (th : Thresholds) (env : ImageEnv)
    (hpil : env.pil_ok = true) (hcv : env.cv_ok = true)
    (hth : th.super_safe_threshold ≤ th.nsfw_threshold) :
    ((classify skipM skipP th env).classification = "nsfw" ↔
      ((mosaicOf skipM env).1 = true ∨
        ((povOf skipP env).1 = false ∧ th.nsfw_threshold ≤ fusedOf env))) := by
  rw [classify_classification skipM skipP th env hpil hcv]
  cases hm : (mosaicOf skipM env).1 with
  | true => simp
  | false =>
    cases hp : (povOf skipP env).1 with
    | true => simp +decide
    | false =>
      by_cases hss : fusedOf env < th.super_safe_threshold ∧
          faceScoreOf env > th.min_face_score
      · have hnt : ¬ th.nsfw_threshold ≤ fusedOf env := by
          intro hT
          exact absurd (lt_of_lt_of_le hss.1 hth) (not_lt.mpr hT)
        simp +decide [hss, hnt]
      · by_cases hT : fusedOf env < th.nsfw_threshold
        · simp +decide [hss, hT, not_le.mpr hT]
        · simp +decide [hss, hT, not_lt.mp hT]

/-- Claim C1 witness: the amended equivalence, instantiated on the trivially
safe one-pixel image at default thresholds. -/
theorem spec_C1_witness :
    ((classify false false defaultThresholds trivialEnv).classification = "nsfw" ↔
      ((mosaicOf false trivialEnv).1 = true ∨
        ((povOf false trivialEnv).1 = false ∧
          defaultThresholds.nsfw_threshold ≤ fusedOf trivialEnv))) :=
  spec_C1 false false defaultThresholds trivialEnv rfl rfl
    (by norm_num [defaultThresholds, SUPER_SAFE_THRESHOLD, NSFW_THRESHOLD])

/-- Claim C2: for every successfully loaded image the tier is assigned by the
fixed first-match precedence: mosaic gives "nsfw", then POV gives "safe", then
low fused score with a face gives "super_safe", then fused score under the
NSFW threshold gives "safe", else "nsfw". -/
theorem spec_C2_precedence (skipM skipP : Bool) (th : Thresholds) (env : ImageEnv)
    (hpil : env.pil_ok = true) (hcv : env.cv_ok = true) :
    (classify skipM skipP th env).classification =
      (if (mosaicOf skipM env).1 then "nsfw"
       else if (povOf skipP env).1 then "safe"
       else if fusedOf env < th.super_safe_threshold ∧ faceScoreOf env > th.min_face_score
         then "super_safe"
       else if fusedOf env < th.nsfw_threshold then "safe"
       else "nsfw") :=
  classify_classification skipM skipP th env hpil hcv

/-- Claim C2 witness: the precedence chain instantiated on the one-pixel
image at default thresholds. -/
theorem spec_C2_witness :
    (classify false false defaultThresholds trivialEnv).classification =
      (if (mosaicOf false trivialEnv).1 then "nsfw"
       else if (povOf false trivialEnv).1 then "safe"
       else if fusedOf trivialEnv < defaultThresholds.super_safe_threshold ∧
           faceScoreOf trivialEnv > defaultThresholds.min_face_score
         then "super_safe"
       else if fusedOf trivialEnv < defaultThresholds.nsfw_threshold then "safe"
       else "nsfw") :=
  spec_C2_precedence false false defaultThresholds trivialEnv rfl rfl

/-- Claim C10: an image narrower or shorter than 100 pixels makes
`_detect_mosaic` return not-detected with score 0, so such an image is never
classified "nsfw" because of mosaic censorship: its tier can be "nsfw" only
when the fused score reaches the NSFW threshold. -/
theorem spec_C10_small_image (skipP : Bool) (th : Thresholds) (env : ImageEnv)
    (hpil : env.pil_ok = true) (hcv : env.cv_ok = true)
    (hsmall : env.img_w < 100 ∨ env.img_h < 100) :
    detect_mosaic env.img_h env.img_w env.gray env.skin env.skin_lap_var = (false, 0) ∧
    (classify false skipP th env).mosaic_detected = false ∧
    ((classify false skipP th env).classification = "nsfw" →
      th.nsfw_threshold ≤ fusedOf env) := by
  have hdm := detect_mosaic_small env.img_h env.img_w env.gray env.skin env.skin_lap_var hsmall
  have hmo : mosaicOf false env = (false, 0) := by
    simp [mosaicOf, hdm]
  refine ⟨hdm, ?_, ?_⟩
  · simp [classify, hpil, hcv, hmo]
  · intro hcl
    rw [classify_classification false skipP th env hpil hcv] at hcl
    rw [hmo] at hcl
    by_cases hp : (povOf skipP env).1
    · simp +decide [hp] at hcl
    · by_cases hss : fusedOf env < th.super_safe_threshold ∧
          faceScoreOf env > th.min_face_score
      · simp +decide [hp, hss] at hcl
      · by_cases hT : fusedOf env < th.nsfw_threshold
        · simp +decide [hp, hss, hT] at hcl
        · exact not_lt.mp hT

/-- Claim C10 witness: instantiated on the one-pixel image. -/
theorem spec_C10_witness :
    detect_mosaic trivialEnv.img_h trivialEnv.img_w trivialEnv.gray trivialEnv.skin
        trivialEnv.skin_lap_var = (false, 0) ∧
    (classify false false defaultThresholds trivialEnv).mosaic_detected = false ∧
    ((classify false false defaultThresholds trivialEnv).classification = "nsfw" →
      defaultThresholds.nsfw_threshold ≤ fusedOf trivialEnv) :=
  spec_C10_small_image false defaultThresholds trivialEnv rfl rfl (Or.inl (by decide))

/-! ### Fusion properties -/

/-- Claim C3: for falconsai score `f` and nudenet score `n` in [0,1], the
fused score is `0.3*f` when `n < 0.25`, is `n` when `n > 0.6`, and is
`0.7*n + 0.3*f` otherwise — with the boundary values `n = 0.25` and `n = 0.6`
falling in the weighted-combination case. -/
theorem spec_C3_fusion (f n : ℚ) (hf0 : 0 ≤ f) (hf1 : f ≤ 1) (hn0 : 0 ≤ n)
    (hn1 : n ≤ 1) :
    (n < 25/100 → fuseScores f n = (3/10) * f) ∧
    (n > 6/10 → fuseScores f n = n) ∧
    (25/100 ≤ n → n ≤ 6/10 → fuseScores f n = (7/10) * n + (3/10) * f) := by
  refine ⟨fun h1 => ?_, fun h2 => ?_, fun h3 h4 => ?_⟩
  · rw [fuseScores, if_pos h1]
    ring
  · have hno : ¬ n < 25/100 := by linarith
    rw [fuseScores, if_neg hno, if_pos h2]
  · have hno : ¬ n < 25/100 := by linarith
    have hno2 : ¬ n > 6/10 := by linarith
    rw [fuseScores, if_neg hno, if_neg hno2]
    ring

/-- Claim C3 witness: the three regimes at `f = 1/2` with `n` equal to 0.1,
0.25 and 0.7 respectively. -/
theorem spec_C3_witness :
    fuseScores (1/2) (1/10) = (3/10) * (1/2) ∧
    fuseScores (1/2) (7/10) = 7/10 ∧
    fuseScores (1/2) (25/100) = (7/10) * (25/100) + (3/10) * (1/2) := by
  refine ⟨?_, ?_, ?_⟩
  · exact (spec_C3_fusion (1/2) (1/10) (by norm_num) (by norm_num) (by norm_num)
      (by norm_num)).1 (by norm_num)
  · exact (spec_C3_fusion (1/2) (7/10) (by norm_num) (by norm_num) (by norm_num)
      (by norm_num)).2.1 (by norm_num)
  · exact (spec_C3_fusion (1/2) (25/100) (by norm_num) (by norm_num) (by norm_num)
      (by norm_num)).2.2 (by norm_num) (by norm_num)

/-- Claim C5 counterexample: already at `f = 0` the jump across the `n = 0.25`
fusion boundary is 0.175, well above the claimed bound 0.05. -/
theorem spec_C5_counterexample :
    ¬ (|fuseScores 0 (25/100) - fuseScores 0 (249/1000)| ≤ 5/100) := by
  have h1 : fuseScores 0 (25/100) = 7/40 := by
    rw [fuseScores]
    norm_num
  have h2 : fuseScores 0 (249/1000) = 0 := by
    rw [fuseScores]
    norm_num
  rw [h1, h2, sub_zero, abs_of_nonneg (by norm_num : (0:ℚ) ≤ 7/40)]
  norm_num

/-- Claim C5 (amended): the fusion is continuous at neither boundary within
0.05, but within 0.18: for every `f` in [0,1], the jump across `n = 0.25` is
exactly 0.175 (the fused value differs from every value in the lower region by
7/40), and the gap across `n = 0.6` is at most 0.18 plus the sampling
distance, so the limit jump is at most 0.18. -/
theorem spec_C5_continuity (f x y : ℚ) (hf0 : 0 ≤ f) (hf1 : f ≤ 1) (hx0 : 0 ≤ x)
    (hx : x < 25/100) (hy : 6/10 < y) :
    fuseScores f (25/100) - fuseScores f x = 7/40 ∧
    |fuseScores f y - fuseScores f (6/10)| ≤ 9/50 + (y - 6/10) := by
  have hmid : fuseScores f (25/100) = (25/100) * (7/10) + f * (3/10) := by
    rw [fuseScores, if_neg (by norm_num), if_neg (by norm_num)]
  have hlow : fuseScores f x = f * (3/10) := by
    rw [fuseScores, if_pos hx]
  have hhigh : fuseScores f y = y := by
    rw [fuseScores, if_neg (by linarith), if_pos hy]
  have htop : fuseScores f (6/10) = (6/10) * (7/10) + f * (3/10) := by
    rw [fuseScores, if_neg (by norm_num), if_neg (by norm_num)]
  constructor
  · rw [hmid, hlow]
    ring
  · rw [hhigh, htop, abs_le]
    constructor <;> linarith

/-- Claim C5 witness: the amended bounds at `f = 0`, `x = 0`, `y = 0.7`. -/
theorem spec_C5_witness :
    fuseScores 0 (25/100) - fuseScores 0 0 = 7/40 ∧
    |fuseScores 0 (7/10) - fuseScores 0 (6/10)| ≤ 9/50 + (7/10 - 6/10) :=
  spec_C5_continuity 0 0 (7/10) (by norm_num) (by norm_num) (by norm_num)
    (by norm_num) (by norm_num)

/-! ### Load-failure semantics and batch counting -/

/-- Claim C8 counterexample: for bytes that do not decode as an image, PIL's
load raises before `cv2.imread` is consulted, so the result is tier "error"
but its reason is the exception message, not "Failed to load image". -/
theorem spec_C8_counterexample :
    (classify false false defaultThresholds badBytesEnv).classification = "error" ∧
    (classify false false defaultThresholds badBytesEnv).reason ≠ "Failed to load image" := by
  have h : classify false false defaultThresholds badBytesEnv =
      errorResult "cannot identify image file" := by
    simp [classify, badBytesEnv]
  rw [h]
  exact ⟨rfl, by decide⟩

/-- Claim C8 (amended): for every image that fails to load (PIL raising, or
OpenCV returning no raster), the result has classification "error" and
nsfw_score 1.0 and the batch loop counts it in `error_count` and in no safety
tier; the reason is "Failed to load image" exactly when PIL succeeded and
OpenCV failed, and is the raised exception's message when PIL itself raised
(the case of undecodable bytes). -/
theorem spec_C8_load_failure (skipM skipP : Bool) (th : Thresholds) (env : ImageEnv)
    (hload : env.pil_ok = false ∨ env.cv_ok = false)
    (hmsg : env.pil_error ≠ "") (c : BatchCounts) :
    (classify skipM skipP th env).classification = "error" ∧
    (classify skipM skipP th env).nsfw_score = 1 ∧
    (env.pil_ok = false → (classify skipM skipP th env).reason = env.pil_error) ∧
    (env.pil_ok = true → (classify skipM skipP th env).reason = "Failed to load image") ∧
    (updateCounts c (classify skipM skipP th env)).error_count = c.error_count + 1 ∧
    (updateCounts c (classify skipM skipP th env)).super_safe_count = c.super_safe_count ∧
    (updateCounts c (classify skipM skipP th env)).safe_count = c.safe_count ∧
    (updateCounts c (classify skipM skipP th env)).nsfw_count = c.nsfw_count := by
  cases hpil : env.pil_ok with
  | false =>
    have hcl : classify skipM skipP th env = errorResult env.pil_error := by
      simp [classify, hpil]
    rw [hcl]
    refine ⟨rfl, rfl, fun _ => rfl, fun hcontra => absurd hcontra (by decide), ?_, ?_, ?_, ?_⟩
    all_goals simp [updateCounts, errorResult, hmsg]
  | true =>
    have hcv : env.cv_ok = false := by
      rcases hload with h | h
      · rw [hpil] at h
        exact absurd h (by decide)
      · exact h
    have hcl : classify skipM skipP th env = errorResult "Failed to load image" := by
      simp [classify, hpil, hcv]
    rw [hcl]
    refine ⟨rfl, rfl, fun hcontra => absurd hcontra (by decide), fun _ => rfl, ?_, ?_, ?_, ?_⟩
    all_goals simp +decide [updateCounts, errorResult]

/-- Claim C8 witness: the amended statement instantiated on the undecodable
image, starting from zeroed batch counters. -/
theorem spec_C8_witness :
    (classify false false defaultThresholds badBytesEnv).classification = "error" ∧
    (classify false false defaultThresholds badBytesEnv).nsfw_score = 1 ∧
    (badBytesEnv.pil_ok = false →
      (classify false false defaultThresholds badBytesEnv).reason = badBytesEnv.pil_error) ∧
    (badBytesEnv.pil_ok = true →
      (classify false false defaultThresholds badBytesEnv).reason = "Failed to load image") ∧
    (updateCounts initCounts (classify false false defaultThresholds badBytesEnv)).error_count =
      initCounts.error_count + 1 ∧
    (updateCounts initCounts (classify false false defaultThresholds badBytesEnv)).super_safe_count =
      initCounts.super_safe_count ∧
    (updateCounts initCounts (classify false false defaultThresholds badBytesEnv)).safe_count =
      initCounts.safe_count ∧
    (updateCounts initCounts (classify false false defaultThresholds badBytesEnv)).nsfw_count =
      initCounts.nsfw_count :=
  spec_C8_load_failure false false defaultThresholds badBytesEnv (Or.inl rfl)
    (by decide) initCounts

/-! ### Report schema -/

/-- Claim C9 counterexample: with no image files the early-return stats dict
of `classify_batch` omits the `original_images` key (and `duplicates_removed`),
so the stable schema is not fully present. -/
theorem spec_C9_counterexample :
    ¬ (∀ k ∈ statsSchema, k ∈ (classify_batch_stats false false false defaultThresholds
        (fun _ => none) PHASH_THRESHOLD (fun _ => trivialEnv) 0 []).map Prod.fst) := by
  intro h
  have hmem := h "original_images" (by simp [statsSchema])
  simp +decide [classify_batch_stats] at hmem

/-- Claim C9 (amended): for a non-empty image list the stats object carries
exactly the twelve schema keys in order; for an empty input it carries only
the ten keys of the early-return dict — `original_images` and
`duplicates_removed` are absent. -/
theorem spec_C9_stats_keys (skipM skipP skipD : Bool) (th : Thresholds)
    (hashOf : Nat → Option Nat) (dt : Nat) (envOf : Nat → ImageEnv) (pt : ℚ)
    (files : List Nat) :
    (files ≠ [] →
      (classify_batch_stats skipM skipP skipD th hashOf dt envOf pt files).map Prod.fst =
        statsSchema) ∧
    (files = [] →
      (classify_batch_stats skipM skipP skipD th hashOf dt envOf pt files).map Prod.fst =
        ["total_images", "super_safe_count", "safe_count", "nsfw_count", "error_count",
         "mosaic_count", "pov_count", "avg_nsfw_score", "avg_face_score",
         "processing_time_sec"]) := by
  constructor
  · intro h
    unfold classify_batch_stats
    rw [if_neg h]
    simp [statsSchema]
  · intro h
    subst h
    simp [classify_batch_stats]

/-- Claim C9 witness: a singleton batch produces the full twelve-key schema. -/
theorem spec_C9_witness :
    (classify_batch_stats false false false defaultThresholds (fun _ => none)
        PHASH_THRESHOLD (fun _ => trivialEnv) 0 [5]).map Prod.fst = statsSchema :=
  (spec_C9_stats_keys false false false defaultThresholds (fun _ => none)
    PHASH_THRESHOLD (fun _ => trivialEnv) 0 [5]).1 (by simp)

/-! ### Score range lemmas -/

theorem round4_nonneg (x : ℚ) (h : 0 ≤ x) : 0 ≤ round4 x := by
  unfold round4
  have hfl : (0:ℤ) ≤ ⌊x * 10000 + 1/2⌋ := by
    apply Int.le_floor.mpr
    push_cast
    linarith
  have : (0:ℚ) ≤ ((⌊x * 10000 + 1/2⌋ : ℤ) : ℚ) := by exact_mod_cast hfl
  linarith

theorem round4_le_div (x : ℚ) (k : ℤ) (h : x ≤ (k : ℚ) / 10000) :
    round4 x ≤ (k : ℚ) / 10000 := by
  unfold round4
  have hb : x * 10000 + 1/2 < (k : ℚ) + 1 := by
    have : x * 10000 ≤ (k : ℚ) := by
      have h4 : (0:ℚ) < 10000 := by norm_num
      calc x * 10000 ≤ ((k : ℚ) / 10000) * 10000 := by
            exact mul_le_mul_of_nonneg_right h (by norm_num)
        _ = (k : ℚ) := by field_simp
    linarith
  have hfl : ⌊x * 10000 + 1/2⌋ < k + 1 := by
    apply Int.floor_lt.mpr
    push_cast
    linarith
  have hfl2 : ⌊x * 10000 + 1/2⌋ ≤ k := by omega
  have : ((⌊x * 10000 + 1/2⌋ : ℤ) : ℚ) ≤ (k : ℚ) := by exact_mod_cast hfl2
  have h4 : (0:ℚ) < 10000 := by norm_num
  exact (div_le_div_iff_of_pos_right h4).mpr this

theorem round4_le_one (x : ℚ) (h : x ≤ 1) : round4 x ≤ 1 := by
  have := round4_le_div x 10000 (by push_cast; linarith)
  have heq : ((10000:ℤ) : ℚ) / 10000 = 1 := by norm_num
  linarith [heq ▸ this]

theorem round4_le_13_10 (x : ℚ) (h : x ≤ 13/10) : round4 x ≤ 13/10 := by
  have := round4_le_div x 13000 (by push_cast; linarith)
  have heq : ((13000:ℤ) : ℚ) / 10000 = 13/10 := by norm_num
  linarith [heq ▸ this]

theorem round4_le_11_10 (x : ℚ) (h : x ≤ 11/10) : round4 x ≤ 11/10 := by
  have := round4_le_div x 11000 (by push_cast; linarith)
  have heq : ((11000:ℤ) : ℚ) / 10000 = 11/10 := by norm_num
  linarith [heq ▸ this]

/-- A fold preserves any invariant its step preserves. -/
theorem foldl_preserve {α β : Type} (P : α → Prop) (f : α → β → α)
    (hf : ∀ a b, P a → P (f a b)) : ∀ (l : List β) (a : α), P a → P (l.foldl f a) := by
  intro l
  induction l with
  | nil => intro a ha; exact ha
  | cons b l ih => intro a ha; exact ih (f a b) (hf a b ha)

theorem scoreFalconsai_bounds (l : List (String × ℚ))
    (h : ∀ r ∈ l, 0 ≤ r.2 ∧ r.2 ≤ 1) :
    0 ≤ scoreFalconsai l ∧ scoreFalconsai l ≤ 1 := by
  unfold scoreFalconsai
  cases hf : l.find? (fun r => decide (r.1 ∈ ["nsfw", "porn", "sexy", "hentai"])) with
  | none => exact ⟨le_refl 0, by norm_num⟩
  | some r => exact h r (List.mem_of_find?_eq_some hf)

/-- A fold preserves an invariant whose preservation may use membership of the
element in the folded list. -/
theorem foldl_preserve_mem {α β : Type} (P : α → Prop) (f : α → β → α) :
    ∀ (l : List β), (∀ a b, b ∈ l → P a → P (f a b)) → ∀ a, P a → P (l.foldl f a) := by
  intro l
  induction l with
  | nil => intro _ a ha; exact ha
  | cons b l ih =>
    intro hf a ha
    exact ih (fun a2 b2 hm => hf a2 b2 (List.mem_cons_of_mem _ hm)) (f a b)
      (hf a b (List.mem_cons_self _ _) ha)

theorem scoreNudenet_bounds (l : List (String × ℚ))
    (h : ∀ d ∈ l, 0 ≤ d.2 ∧ d.2 ≤ 1) :
    0 ≤ scoreNudenet l ∧ scoreNudenet l ≤ 1 := by
  unfold scoreNudenet
  by_cases hl : l = []
  · rw [if_pos hl]
    exact ⟨le_refl 0, by norm_num⟩
  · rw [if_neg hl]
    refine foldl_preserve_mem (fun m => 0 ≤ m ∧ m ≤ 1) _ l ?_ 0 ⟨le_refl 0, by norm_num⟩
    intro m det hmem hm
    by_cases hlab : det.1 ∈ NSFW_LABELS
    · rw [if_pos hlab]
      exact ⟨le_trans hm.1 (le_max_left _ _), max_le hm.2 (h det hmem).2⟩
    · rw [if_neg hlab]
      exact hm

theorem fuseScores_bounds (f n : ℚ) (hf0 : 0 ≤ f) (hf1 : f ≤ 1) (hn0 : 0 ≤ n)
    (hn1 : n ≤ 1) : 0 ≤ fuseScores f n ∧ fuseScores f n ≤ 1 := by
  unfold fuseScores
  split_ifs with h1 h2
  · constructor <;> nlinarith
  · exact ⟨hn0, hn1⟩
  · constructor <;> nlinarith

theorem faceScore_bounds (img_h img_w : Nat) (faces : List (Nat × Nat × Nat × Nat))
    (hh : 1 ≤ img_h) (hw : 1 ≤ img_w)
    (hfaces : ∀ f ∈ faces, f.1 + f.2.2.1 ≤ img_w ∧ f.2.1 + f.2.2.2 ≤ img_h) :
    0 ≤ faceScore img_h img_w faces ∧ faceScore img_h img_w faces ≤ 1 := by
  unfold faceScore
  by_cases hl : faces = []
  · rw [if_pos hl]
    exact ⟨le_refl 0, by norm_num⟩
  · rw [if_neg hl]
    have harea : (0:ℚ) < (img_h : ℚ) * (img_w : ℚ) := by
      have h1 : (1:ℚ) ≤ (img_h : ℚ) := by exact_mod_cast hh
      have h2 : (1:ℚ) ≤ (img_w : ℚ) := by exact_mod_cast hw
      nlinarith
    have hfold : 0 ≤ faces.foldl
        (fun m f => max m (((f.2.2.1 : ℚ) * (f.2.2.2 : ℚ)) / ((img_h : ℚ) * (img_w : ℚ)))) 0 ∧
        faces.foldl
        (fun m f => max m (((f.2.2.1 : ℚ) * (f.2.2.2 : ℚ)) / ((img_h : ℚ) * (img_w : ℚ)))) 0 ≤ 1 := by
      refine foldl_preserve_mem (fun m => 0 ≤ m ∧ m ≤ 1) _ faces ?_ 0 ⟨le_refl 0, by norm_num⟩
      intro m f hmem hm
      have hfw : (f.2.2.1 : ℚ) ≤ (img_w : ℚ) := by
        exact_mod_cast Nat.le_trans (Nat.le_add_left _ _) (hfaces f hmem).1
      have hfh : (f.2.2.2 : ℚ) ≤ (img_h : ℚ) := by
        exact_mod_cast Nat.le_trans (Nat.le_add_left _ _) (hfaces f hmem).2
      have hfw0 : (0:ℚ) ≤ (f.2.2.1 : ℚ) := by positivity
      have hfh0 : (0:ℚ) ≤ (f.2.2.2 : ℚ) := by positivity
      have hratio0 : 0 ≤ ((f.2.2.1 : ℚ) * (f.2.2.2 : ℚ)) / ((img_h : ℚ) * (img_w : ℚ)) := by
        positivity
      have hratio1 : ((f.2.2.1 : ℚ) * (f.2.2.2 : ℚ)) / ((img_h : ℚ) * (img_w : ℚ)) ≤ 1 := by
        rw [div_le_one harea]
        nlinarith
      exact ⟨le_trans hm.1 (le_max_left _ _), max_le hm.2 hratio1⟩
    obtain ⟨hm0, hm1⟩ := hfold
    dsimp only
    split_ifs with hs1 hs2
    · constructor <;> nlinarith
    · constructor <;> norm_num
    · constructor
      · exact le_min (by norm_num) (by nlinarith)
      · exact min_le_left _ _

theorem aestheticScore_bounds (v g : ℚ) (hv : 0 ≤ v) (hg0 : 0 ≤ g) (hg1 : g ≤ 255) :
    0 ≤ aestheticScore v g ∧ aestheticScore v g ≤ 1 := by
  unfold aestheticScore
  have hs0 : (0:ℚ) ≤ min 1 (v / 500) := le_min (by norm_num) (by positivity)
  have hs1 : min 1 (v / 500) ≤ 1 := min_le_left _ _
  have hb0 : (0:ℚ) ≤ g / 255 := by positivity
  have hb1 : g / 255 ≤ 1 := by
    rw [div_le_one (by norm_num : (0:ℚ) < 255)]
    exact hg1
  have habs : |g / 255 - 1/2| ≤ 1/2 := by
    rw [abs_le]
    constructor <;> linarith
  have habs0 : (0:ℚ) ≤ |g / 255 - 1/2| := abs_nonneg _
  constructor <;> nlinarith

theorem mosaicCountsForSize_le (gray : Nat → Nat → ℚ) (skin : Nat → Nat → Bool)
    (img_h img_w bs : Nat) :
    (mosaicCountsForSize gray skin img_h img_w bs).1 ≤
      (mosaicCountsForSize gray skin img_h img_w bs).2 := by
  unfold mosaicCountsForSize
  refine foldl_preserve (fun acc : Nat × Nat => acc.1 ≤ acc.2) _ ?_ _ _ (le_refl 0)
  intro acc y hacc
  refine foldl_preserve (fun acc2 : Nat × Nat => acc2.1 ≤ acc2.2) _ ?_ _ acc hacc
  intro acc2 x hacc2
  dsimp only
  split_ifs <;> first | exact hacc2 | (dsimp only; omega)

theorem mosaicBestScore_bounds (gray : Nat → Nat → ℚ) (skin : Nat → Nat → Bool)
    (img_h img_w : Nat) :
    0 ≤ mosaicBestScore gray skin img_h img_w ∧
      mosaicBestScore gray skin img_h img_w ≤ 1 := by
  unfold mosaicBestScore
  refine foldl_preserve (fun b : ℚ => 0 ≤ b ∧ b ≤ 1) _ ?_ _ 0 ⟨le_refl 0, by norm_num⟩
  intro b bs hb
  dsimp only
  split_ifs with h1 h2
  · have hle := mosaicCountsForSize_le gray skin img_h img_w bs
    have hpos : (0:ℚ) < ((mosaicCountsForSize gray skin img_h img_w bs).2 : ℚ) := by
      exact_mod_cast Nat.lt_of_lt_of_le (by norm_num) h1
    constructor
    · positivity
    · rw [div_le_one hpos]
      exact_mod_cast hle
  · exact hb
  · exact hb

theorem detect_mosaic_score_bounds (img_h img_w : Nat) (gray : Nat → Nat → ℚ)
    (skin : Nat → Nat → Bool) (slv : ℚ) :
    0 ≤ (detect_mosaic img_h img_w gray skin slv).2 ∧
      (detect_mosaic img_h img_w gray skin slv).2 ≤ 13/10 := by
  have hbase := mosaicBestScore_bounds gray skin img_h img_w
  have hlap : min 1 (slv / 2000) ≤ 1 := min_le_left _ _
  constructor
  · unfold detect_mosaic
    dsimp only
    split_ifs with h0 h1 h2 h3 <;> dsimp only
    · norm_num
    · exact le_trans hbase.1 (le_max_left _ _)
    · exact hbase.1
    · exact hbase.1
    · exact hbase.1
  · unfold detect_mosaic
    dsimp only
    split_ifs with h0 h1 h2 h3 <;> dsimp only
    · norm_num
    · refine max_le (le_trans hbase.2 (by norm_num)) ?_
      nlinarith [hbase.2, hlap]
    · exact le_trans hbase.2 (by norm_num)
    · exact le_trans hbase.2 (by norm_num)
    · exact le_trans hbase.2 (by norm_num)

theorem detect_pov_score_bounds (img_h img_w : Nat)
    (faces : List (Nat × Nat × Nat × Nat)) (skin : Nat → Nat → Bool) :
    0 ≤ (detect_pov img_h img_w faces skin).2 ∧
      (detect_pov img_h img_w faces skin).2 ≤ 11/10 := by
  have hcontrib : ∀ a b c d : ℚ, 0 ≤ povContrib a b c d ∧ povContrib a b c d ≤ 11/10 := by
    intro a b c d
    constructor <;> (unfold povContrib; split_ifs <;> norm_num)
  constructor <;>
    (unfold detect_pov
     dsimp only
     split_ifs <;>
       first
         | exact (hcontrib _ _ _ _).1
         | exact (hcontrib _ _ _ _).2
         | (dsimp only
            first
              | exact (hcontrib _ _ _ _).1
              | exact (hcontrib _ _ _ _).2
              | norm_num))

/-- The score fields of a successfully classified image are the 4-decimal
roundings of the corresponding signals. -/
theorem classify_fields (skipM skipP : Bool) (th : Thresholds) (env : ImageEnv)
    (hpil : env.pil_ok = true) (hcv : env.cv_ok = true) :
    (classify skipM skipP th env).nsfw_score = round4 (fusedOf env) ∧
    (classify skipM skipP th env).face_score = round4 (faceScoreOf env) ∧
    (classify skipM skipP th env).aesthetic_score =
      round4 (aestheticScore env.laplacian_var env.mean_gray) ∧
    (classify skipM skipP th env).falconsai_score = round4 (falconsaiOf env) ∧
    (classify skipM skipP th env).nudenet_score = round4 (nudenetOf env) ∧
    (classify skipM skipP th env).mosaic_score = round4 ((mosaicOf skipM env).2) ∧
    (classify skipM skipP th env).pov_score = round4 ((povOf skipP env).2) := by
  refine ⟨?_, ?_, ?_, ?_, ?_, ?_, ?_⟩ <;> simp [classify, hpil, hcv]

/-- Claim C4 counterexample: on the 8-by-8 POV composition every POV
contribution fires, so the reported `pov_score` is 1.1, outside [0,1]. -/
theorem spec_C4_counterexample :
    ¬ (0 ≤ (classify false false defaultThresholds povEnv2).pov_score ∧
        (classify false false defaultThresholds povEnv2).pov_score ≤ 1) := by
  have hpv : povOf false povEnv2 = (true, 11/10) := by
    simpa [povOf, povEnv2] using povSkin_pov_eval
  have hfield : (classify false false defaultThresholds povEnv2).pov_score =
      round4 (11/10) := by
    have h := (classify_fields false false defaultThresholds povEnv2 rfl rfl).2.2.2.2.2.2
    rw [h, hpv]
  have hval : round4 ((11:ℚ)/10) = 11/10 := by norm_num [round4]
  rw [hfield, hval]
  intro hcontra
  linarith [hcontra.2]

/-- Claim C4 (amended): for every input image (loaded or not), with the model
confidences and raster statistics in their native ranges and the face boxes
inside the image, the reported `nsfw_score`, `face_score`, `aesthetic_score`,
`falconsai_score` and `nudenet_score` lie in [0,1]; `mosaic_score` lies in
[0, 1.3] (the Laplacian boost can push it above 1) and `pov_score` lies in
[0, 1.1] (the four contributions sum to 1.1); neither is clamped to [0,1]. -/
theorem spec_C4_score_ranges (skipM skipP : Bool) (th : Thresholds) (env : ImageEnv)
    (hh : 1 ≤ env.img_h) (hw : 1 ≤ env.img_w)
    (hfal : ∀ r ∈ env.falconsai_results, 0 ≤ r.2 ∧ r.2 ≤ 1)
    (hnud : ∀ d ∈ env.nudenet_detections, 0 ≤ d.2 ∧ d.2 ≤ 1)
    (hfaces : ∀ f ∈ env.faces, f.1 + f.2.2.1 ≤ env.img_w ∧ f.2.1 + f.2.2.2 ≤ env.img_h)
    (hlap : 0 ≤ env.laplacian_var) (hg0 : 0 ≤ env.mean_gray)
    (hg1 : env.mean_gray ≤ 255) :
    (0 ≤ (classify skipM skipP th env).nsfw_score ∧
      (classify skipM skipP th env).nsfw_score ≤ 1) ∧
    (0 ≤ (classify skipM skipP th env).face_score ∧
      (classify skipM skipP th env).face_score ≤ 1) ∧
    (0 ≤ (classify skipM skipP th env).aesthetic_score ∧
      (classify skipM skipP th env).aesthetic_score ≤ 1) ∧
    (0 ≤ (classify skipM skipP th env).falconsai_score ∧
      (classify skipM skipP th env).falconsai_score ≤ 1) ∧
    (0 ≤ (classify skipM skipP th env).nudenet_score ∧
      (classify skipM skipP th env).nudenet_score ≤ 1) ∧
    (0 ≤ (classify skipM skipP th env).mosaic_score ∧
      (classify skipM skipP th env).mosaic_score ≤ 13/10) ∧
    (0 ≤ (classify skipM skipP th env).pov_score ∧
      (classify skipM skipP th env).pov_score ≤ 11/10) := by
  cases hpil : env.pil_ok with
  | false =>
    have hcl : classify skipM skipP th env = errorResult env.pil_error := by
      simp [classify, hpil]
    rw [hcl]
    unfold errorResult
    norm_num
  | true =>
    cases hcv : env.cv_ok with
    | false =>
      have hcl : classify skipM skipP th env = errorResult "Failed to load image" := by
        simp [classify, hpil, hcv]
      rw [hcl]
      unfold errorResult
      norm_num
    | true =>
      have hfalb : 0 ≤ falconsaiOf env ∧ falconsaiOf env ≤ 1 :=
        scoreFalconsai_bounds env.falconsai_results hfal
      have hnudb : 0 ≤ nudenetOf env ∧ nudenetOf env ≤ 1 :=
        scoreNudenet_bounds env.nudenet_detections hnud
      have hfuse : 0 ≤ fusedOf env ∧ fusedOf env ≤ 1 :=
        fuseScores_bounds _ _ hfalb.1 hfalb.2 hnudb.1 hnudb.2
      have hface : 0 ≤ faceScoreOf env ∧ faceScoreOf env ≤ 1 :=
        faceScore_bounds env.img_h env.img_w env.faces hh hw hfaces
      have haes : 0 ≤ aestheticScore env.laplacian_var env.mean_gray ∧
          aestheticScore env.laplacian_var env.mean_gray ≤ 1 :=
        aestheticScore_bounds env.laplacian_var env.mean_gray hlap hg0 hg1
      have hmos : 0 ≤ (mosaicOf skipM env).2 ∧ (mosaicOf skipM env).2 ≤ 13/10 := by
        unfold mosaicOf
        split_ifs
        · constructor <;> norm_num
        · exact detect_mosaic_score_bounds env.img_h env.img_w env.gray env.skin
            env.skin_lap_var
      have hpov : 0 ≤ (povOf skipP env).2 ∧ (povOf skipP env).2 ≤ 11/10 := by
        unfold povOf
        split_ifs
        · constructor <;> norm_num
        · exact detect_pov_score_bounds env.img_h env.img_w env.faces env.skin
      obtain ⟨f1, f2, f3, f4, f5, f6, f7⟩ :=
        classify_fields skipM skipP th env hpil hcv
      rw [f1, f2, f3, f4, f5, f6, f7]
      exact ⟨⟨round4_nonneg _ hfuse.1, round4_le_one _ hfuse.2⟩,
        ⟨round4_nonneg _ hface.1, round4_le_one _ hface.2⟩,
        ⟨round4_nonneg _ haes.1, round4_le_one _ haes.2⟩,
        ⟨round4_nonneg _ hfalb.1, round4_le_one _ hfalb.2⟩,
        ⟨round4_nonneg _ hnudb.1, round4_le_one _ hnudb.2⟩,
        ⟨round4_nonneg _ hmos.1, round4_le_13_10 _ hmos.2⟩,
        ⟨round4_nonneg _ hpov.1, round4_le_11_10 _ hpov.2⟩⟩

/-- Claim C4 witness: the amended score ranges instantiated on the one-pixel
image. -/
theorem spec_C4_witness :
    (0 ≤ (classify false false defaultThresholds trivialEnv).nsfw_score ∧
      (classify false false defaultThresholds trivialEnv).nsfw_score ≤ 1) ∧
    (0 ≤ (classify false false defaultThresholds trivialEnv).face_score ∧
      (classify false false defaultThresholds trivialEnv).face_score ≤ 1) ∧
    (0 ≤ (classify false false defaultThresholds trivialEnv).aesthetic_score ∧
      (classify false false defaultThresholds trivialEnv).aesthetic_score ≤ 1) ∧
    (0 ≤ (classify false false defaultThresholds trivialEnv).falconsai_score ∧
      (classify false false defaultThresholds trivialEnv).falconsai_score ≤ 1) ∧
    (0 ≤ (classify false false defaultThresholds trivialEnv).nudenet_score ∧
      (classify false false defaultThresholds trivialEnv).nudenet_score ≤ 1) ∧
    (0 ≤ (classify false false defaultThresholds trivialEnv).mosaic_score ∧
      (classify false false defaultThresholds trivialEnv).mosaic_score ≤ 13/10) ∧
    (0 ≤ (classify false false defaultThresholds trivialEnv).pov_score ∧
      (classify false false defaultThresholds trivialEnv).pov_score ≤ 11/10) :=
  spec_C4_score_ranges false false defaultThresholds trivialEnv (le_refl 1) (le_refl 1)
    (by simp [trivialEnv]) (by simp [trivialEnv]) (by simp [trivialEnv])
    (le_refl 0) (le_refl 0) (by norm_num [trivialEnv])
